import Mathlib

/-!
Shallow embedding of the transaction-lifecycle core of the cattle-marketplace
backend (src/BackEnd/main.py): listings, proposals, weight entries,
transactions and notifications, together with the handlers
create_proposal, handle_proposal, pay_fee, add_weight_entry, get_weights,
finalize_transaction and submit_slaughterhouse_weight.

Conventions of the embedding:
* Each JSON collection is a Lean list of structures; the whole persisted
  state is one `AppState` value.  Handlers are pure functions
  `AppState → args → Except HTTPErr result × AppState`; every handler in
  the source raises before its first save, so an error leaves the state
  unchanged, which the embedding makes explicit by returning the input
  state in the error case.
* HTTP errors are the literal status code plus detail string of the
  source (404/403/400, FastAPI default phrases where the source passes no
  detail; 422 for a pydantic body-validation failure).
* Floats in the source (prices, weights, fees, yield rate) are embedded
  as rationals.  `round2` models Python's `round(x, 2)`; the tie-breaking
  rule differs (Python rounds half to even) but no statement below sits
  on a tie.
* Fresh UUIDs and clock readings are nondeterministic in the source and
  become explicit `newId` / `now` arguments.
* Notification text interpolating numbers keeps only the constant part of
  the message; only recipients and the constant prefixes are ever used in
  statements.
* Listing fields written by endpoints that no statement below touches
  (internal weight, advance payment, race, creation time) are omitted.
-/

deriving instance DecidableEq for Except

/-- An HTTP error response: status code and detail string. -/
structure HTTPErr where
  status : Nat
  detail : String
deriving DecidableEq, Repr

/-- A supply-side listing record (`farmers.json` entry). -/
structure Listing where
  id : String
  owner_id : String
  status : String
  quantity : Int
  buyer_id : Option String := none
  nfe_file : Option String := none
  gta_file : Option String := none
  transaction_id : Option String := none
deriving DecidableEq, Repr

/-- A proposal record (`proposals.json` entry). -/
structure Proposal where
  id : String
  supply_id : String
  buyer_id : String
  buyer_contact : String
  price_offer : ℚ
  message : String
  status : String
  timestamp : ℚ
deriving DecidableEq, Repr

/-- A weight entry (`weights.json` entry). -/
structure WeightEntry where
  batch_number : Int
  quantity : Int
  total_weight : ℚ
  timestamp : String
  listing_id : String
deriving DecidableEq, Repr

/-- A transaction record (`transactions.json` entry); optional fields are
the keys only some code paths write. -/
structure Transaction where
  id : String
  listing_id : String
  proposal_id : String
  nfe_document : String
  gta_document : String
  transport_fee : ℚ
  funrural_tax : ℚ
  timestamp : ℚ
  total_weight : Option ℚ := none
  at_quantity : Option ℚ := none
  yield_rate : Option ℚ := none
  price_per_unit : Option ℚ := none
  gross_amount : Option ℚ := none
  final_amount : Option ℚ := none
  status : String := ""
  note : Option String := none
  slaughterhouse_weight : Option ℚ := none
  completed_at : Option ℚ := none
deriving DecidableEq, Repr

/-- A notification (`notifications.json` entry); the recipient is optional
because `finalize_transaction` notifies `listing.get('buyer_id')`, which
may be unset. -/
structure Notification where
  user_id : Option String
  message : String
deriving DecidableEq, Repr

/-- A user account record (`users.json` entry), restricted to the fields
the modelled handlers read. -/
structure User where
  username : String
  role : String
  phone : Option String := none
deriving DecidableEq, Repr

/-- The whole persisted state: one list per JSON collection. -/
structure AppState where
  users : List User
  farmers : List Listing
  proposals : List Proposal
  weights : List WeightEntry
  transactions : List Transaction
  notifs : List Notification
deriving DecidableEq, Repr

/-- Update the first element satisfying `p` (Python's `next(...)` returning
a dict that is then mutated in place inside the loaded list). -/
def updateFirst (p : α → Bool) (g : α → α) : List α → List α
  | [] => []
  | x :: xs => if p x then g x :: xs else x :: updateFirst p g xs

/-- Python's `round(x, 2)`: round to two decimal places. -/
def round2 (x : ℚ) : ℚ := (round (x * 100) : ℤ) / 100

/-- The pydantic constraint on `FinalPayment.yield_rate`:
`Field(ge=0.48, le=0.55)`. -/
def rateValid (r : ℚ) : Bool := decide ((48 : ℚ) / 100 ≤ r ∧ r ≤ (55 : ℚ) / 100)

/-- Request body of the finalize endpoint (pydantic model `FinalPayment`). -/
structure FinalPayment where
  nfe_document : String
  gta_document : String
  transport_fee : ℚ := 0
  funrural_tax : ℚ := 0
  yield_rate : ℚ := (52 : ℚ) / 100
deriving DecidableEq, Repr

/-- Status of the listing with the given id, if present. -/
def listingStatus (s : AppState) (lid : String) : Option String :=
  (s.farmers.find? (fun f => f.id == lid)).map (fun f => f.status)

/-- Status of the proposal with the given id, if present. -/
def propStatus (s : AppState) (pid : String) : Option String :=
  (s.proposals.find? (fun p => p.id == pid)).map (fun p => p.status)

/-- `u_data.get('role') == 'farmer'` with `u_data` the user record found
for `user`, or `{}` when absent. -/
def roleIsFarmer (s : AppState) (user : String) : Bool :=
  match s.users.find? (fun u => u.username == user) with
  | some u => u.role == "farmer"
  | none => false

/-- `u_data.get('phone', 'Unknown')`: the contact snapshot taken at
proposal creation. -/
def contactOf (s : AppState) (user : String) : String :=
  ((s.users.find? (fun u => u.username == user)).bind
    (fun u => u.phone)).getD "Unknown"

/-- `POST /api/proposals` (`create_proposal`): submit a proposal against a
listing.  Returns the new proposal id. -/
def create_proposal (s : AppState) (supply_id : String) (price_offer : ℚ)
    (message user newId : String) (now : ℚ) :
    Except HTTPErr String × AppState :=
  match s.farmers.find? (fun f => f.id == supply_id) with
  | none => (.error ⟨404, "Supply not found"⟩, s)
  | some supply =>
    if supply.status != "OPEN" then (.error ⟨400, "Listing not open"⟩, s)
    else
      if roleIsFarmer s user then
        (.error ⟨400, "Farmers cannot buy"⟩, s)
      else
        let new_prop : Proposal :=
          { id := newId, supply_id := supply_id, buyer_id := user,
            buyer_contact := contactOf s user,
            price_offer := price_offer, message := message,
            status := "PENDING", timestamp := now }
        (.ok newId,
         { s with proposals := s.proposals ++ [new_prop],
                  notifs := s.notifs ++
                    [⟨some supply.owner_id, "New Offer: R$ "⟩] })

/-- `POST /api/proposals/{pid}/{action}` (`handle_proposal`): accept or
reject a proposal; any other action falls through and still reports
success. -/
def handle_proposal (s : AppState) (pid action user : String) :
    Except HTTPErr String × AppState :=
  match s.proposals.find? (fun p => p.id == pid) with
  | none => (.error ⟨404, "Not found"⟩, s)
  | some prop =>
    if action == "reject" then
      let proposals' :=
        updateFirst (fun p => p.id == pid)
          (fun p => { p with status := "REJECTED" }) s.proposals
      (.ok "Updated", { s with proposals := proposals' })
    else if action == "accept" then
      let proposals' :=
        updateFirst (fun p => p.id == pid)
          (fun p => { p with status := "ACCEPTED" }) s.proposals
      match s.farmers.find? (fun f => f.id == prop.supply_id) with
      | some _ =>
        let farmers' :=
          updateFirst (fun f => f.id == prop.supply_id)
            (fun f => { f with status := "AWAITING_PAYMENT",
                               buyer_id := some prop.buyer_id })
            s.farmers
        let notifs' := s.notifs ++
          [⟨some prop.buyer_id, "Offer Accepted! Pay fee to lock."⟩]
        (.ok "Updated",
         { s with proposals := proposals', farmers := farmers',
                  notifs := notifs' })
      | none => (.ok "Updated", { s with proposals := proposals' })
    else (.ok "Updated", s)

/-- `POST /api/pay-reservation/{pid}` (`pay_fee`): pay the reservation
deposit.  Returns the `nfe_file` / `gta_file` placeholders of the listing. -/
def pay_fee (s : AppState) (pid user : String) :
    Except HTTPErr (Option String × Option String) × AppState :=
  match s.proposals.find? (fun p => p.id == pid) with
  | none => (.error ⟨403, "Forbidden"⟩, s)
  | some prop =>
    if prop.buyer_id != user then (.error ⟨403, "Forbidden"⟩, s)
    else
      match s.farmers.find? (fun f => f.id == prop.supply_id) with
      | none => (.error ⟨404, "Not Found"⟩, s)
      | some supply =>
        let farmers' :=
          updateFirst (fun f => f.id == prop.supply_id)
            (fun f => { f with status := "SOLD" }) s.farmers
        let proposals' :=
          updateFirst (fun p => p.id == pid)
            (fun p => { p with status := "PAID" }) s.proposals
        let notifs' := s.notifs ++
          [⟨some supply.owner_id, "Deal Closed! Buyer paid fee."⟩]
        (.ok (supply.nfe_file, supply.gta_file),
         { s with farmers := farmers', proposals := proposals',
                  notifs := notifs' })

/-- `POST /api/listings/{listing_id}/weights` (`add_weight_entry`): record
a live-weight batch.  Returns `(total_weighed, remaining)`. -/
def add_weight_entry (s : AppState) (listing_id : String)
    (batch_number quantity : Int) (total_weight : ℚ)
    (timestamp : Option String) (user now : String) :
    Except HTTPErr (Int × Int) × AppState :=
  match s.farmers.find? (fun f => f.id == listing_id) with
  | none => (.error ⟨404, "Listing not found"⟩, s)
  | some listing =>
    if listing.owner_id != user then (.error ⟨403, "Not authorized"⟩, s)
    else if !(listing.status == "SOLD" || listing.status == "AWAITING_PAYMENT")
    then (.error ⟨400, "Listing must be reserved first"⟩, s)
    else
      let ts := match timestamp with
        | none => now
        | some t => if t == "" then now else t
      let entry : WeightEntry :=
        ⟨batch_number, quantity, total_weight, ts, listing_id⟩
      let weights' := s.weights ++ [entry]
      let listing_weights := weights'.filter (fun w => w.listing_id == listing_id)
      let total_quantity := (listing_weights.map (fun w => w.quantity)).sum
      let notifs' :=
        if listing.quantity ≤ total_quantity then
          s.notifs ++
            [⟨some user, "Weighing completed for listing #" ++ listing_id⟩]
        else s.notifs
      (.ok (total_quantity, listing.quantity - total_quantity),
       { s with weights := weights', notifs := notifs' })

/-- `GET /api/listings/{listing_id}/weights` (`get_weights`): all entries
for a listing plus the summary `(total_batches, total_quantity,
total_weight)`.  Never fails and never writes. -/
def get_weights (s : AppState) (listing_id : String) (user : String) :
    List WeightEntry × Nat × Int × ℚ :=
  let listing_weights := s.weights.filter (fun w => w.listing_id == listing_id)
  (listing_weights,
   listing_weights.length,
   (listing_weights.map (fun w => w.quantity)).sum,
   round2 ((listing_weights.map (fun w => w.total_weight)).sum))

/-- `POST /api/listings/{listing_id}/finalize` (`finalize_transaction`):
submit final documents and compute the settlement.  The leading 422 check
models pydantic rejecting a `FinalPayment` body whose `yield_rate` is
outside `[0.48, 0.55]` before the handler runs. -/
def finalize_transaction (s : AppState) (listing_id : String)
    (payment : FinalPayment) (user newId : String) (now : ℚ) :
    Except HTTPErr Transaction × AppState :=
  if !rateValid payment.yield_rate then
    (.error ⟨422, "Unprocessable Entity"⟩, s)
  else
    match s.farmers.find? (fun f => f.id == listing_id) with
    | none => (.error ⟨403, "Not authorized"⟩, s)
    | some listing =>
      if listing.owner_id != user then (.error ⟨403, "Not authorized"⟩, s)
      else
        match s.proposals.find?
            (fun p => p.supply_id == listing_id && p.status == "PAID") with
        | none => (.error ⟨400, "No accepted proposal found"⟩, s)
        | some proposal =>
          let base : Transaction :=
            { id := newId, listing_id := listing_id,
              proposal_id := proposal.id,
              nfe_document := payment.nfe_document,
              gta_document := payment.gta_document,
              transport_fee := payment.transport_fee,
              funrural_tax := payment.funrural_tax,
              timestamp := now }
          let listing_weights :=
            s.weights.filter (fun w => w.listing_id == listing_id)
          let transaction :=
            if listing_weights.isEmpty then
              { base with status := "awaiting_slaughterhouse_weight",
                          note := some "Waiting for slaughterhouse weighing" }
            else
              let total_weight :=
                (listing_weights.map (fun w => w.total_weight)).sum
              let at_quantity := total_weight / 15
              let final_amount :=
                at_quantity * payment.yield_rate * proposal.price_offer
              { base with
                  total_weight := some total_weight,
                  at_quantity := some (round2 at_quantity),
                  yield_rate := some payment.yield_rate,
                  price_per_unit := some proposal.price_offer,
                  gross_amount := some (round2 final_amount),
                  final_amount := some (round2 (final_amount -
                    payment.transport_fee - payment.funrural_tax)),
                  status := "completed" }
          let farmers' :=
            updateFirst (fun f => f.id == listing_id)
              (fun f => { f with status := "COMPLETED",
                                 transaction_id := some transaction.id })
              s.farmers
          let notifs' := s.notifs ++
            [⟨listing.buyer_id,
              "Transaction completed - Listing #" ++ listing_id⟩,
             ⟨listing.buyer_id,
              "Deposit refunded - Listing #" ++ listing_id⟩]
          (.ok transaction,
           { s with transactions := s.transactions ++ [transaction],
                    farmers := farmers', notifs := notifs' })

/-- `POST /api/transactions/{transaction_id}/slaughterhouse-weight`
(`submit_slaughterhouse_weight`): dead-weight settlement.  Returns the
calculation triple `(final_weight, at_quantity, final_amount)`. -/
def submit_slaughterhouse_weight (s : AppState) (transaction_id : String)
    (final_weight yield_rate price_per_unit : ℚ) (user : String) (now : ℚ) :
    Except HTTPErr (ℚ × ℚ × ℚ) × AppState :=
  match s.transactions.find? (fun t => t.id == transaction_id) with
  | none => (.error ⟨404, "Transaction not found"⟩, s)
  | some transaction =>
    let at_quantity := final_weight / 15
    let final_amount := at_quantity * yield_rate * price_per_unit
    let transactions' :=
      updateFirst (fun t => t.id == transaction_id)
        (fun t => { t with
            slaughterhouse_weight := some final_weight,
            at_quantity := some (round2 at_quantity),
            yield_rate := some yield_rate,
            price_per_unit := some price_per_unit,
            final_amount := some (round2 final_amount),
            status := "completed",
            completed_at := some now })
        s.transactions
    let notifs' :=
      match s.farmers.find? (fun f => f.id == transaction.listing_id) with
      | some listing =>
        s.notifs ++ [⟨some listing.owner_id, "Final weighing completed"⟩]
      | none => s.notifs
    (.ok (final_weight, round2 at_quantity, round2 final_amount),
     { s with transactions := transactions', notifs := notifs' })

/-- Total recorded mass over all weight entries of a listing. -/
def wsum (s : AppState) (lid : String) : ℚ :=
  ((s.weights.filter (fun w => w.listing_id == lid)).map
    (fun w => w.total_weight)).sum

/-- Cumulative weighed head count over all weight entries of a listing. -/
def qsum (s : AppState) (lid : String) : Int :=
  ((s.weights.filter (fun w => w.listing_id == lid)).map
    (fun w => w.quantity)).sum

/-- Position of a listing status in the lifecycle order the specification
claims: OPEN before AWAITING_PAYMENT before SOLD before COMPLETED. -/
def statusRank : String → Option Nat
  | "OPEN" => some 0
  | "AWAITING_PAYMENT" => some 1
  | "SOLD" => some 2
  | "COMPLETED" => some 3
  | _ => none

/- Concrete scenario data used by the closed theorems and witnesses below. -/

/-- A farmer account. -/
def u_farmer1 : User :=
  { username := "farmer1", role := "farmer", phone := some "111" }

/-- A second farmer account (used as a would-be buyer). -/
def u_farmer2 : User :=
  { username := "farmer2", role := "farmer", phone := some "333" }

/-- A buyer account. -/
def u_buyer1 : User :=
  { username := "buyer1", role := "user", phone := some "222" }

/-- C1 scenario: one open listing, two proposals from the same buyer. -/
def C1_s0 : AppState :=
  { users := [u_farmer1, u_buyer1],
    farmers := [{ id := "L", owner_id := "farmer1", status := "OPEN",
                  quantity := 10 }],
    proposals := [], weights := [], transactions := [], notifs := [] }

/-- C1 scenario after the buyer submits proposal P1. -/
def C1_s1 : AppState := (create_proposal C1_s0 "L" 300 "" "buyer1" "P1" 1).2

/-- C1 scenario after the buyer submits a second proposal P2 (the listing
is still OPEN, so this succeeds). -/
def C1_s2 : AppState := (create_proposal C1_s1 "L" 310 "" "buyer1" "P2" 2).2

/-- C1 scenario after the farmer accepts P1 (listing AWAITING_PAYMENT). -/
def C1_s3 : AppState := (handle_proposal C1_s2 "P1" "accept" "farmer1").2

/-- C1 scenario after the buyer pays P1 (listing SOLD). -/
def C1_s4 : AppState := (pay_fee C1_s3 "P1" "buyer1").2

/-- C1 scenario after the farmer accepts the still-pending P2: the listing
moves back to AWAITING_PAYMENT. -/
def C1_s5 : AppState := (handle_proposal C1_s4 "P2" "accept" "farmer1").2

/-- C3 scenario: one open listing. -/
def C3_s0 : AppState :=
  { users := [u_farmer1, u_buyer1],
    farmers := [{ id := "M", owner_id := "farmer1", status := "OPEN",
                  quantity := 5 }],
    proposals := [], weights := [], transactions := [], notifs := [] }

/-- C3 scenario after the buyer submits proposal Q1 (status PENDING). -/
def C3_s1 : AppState := (create_proposal C3_s0 "M" 250 "" "buyer1" "Q1" 1).2

/-- C2 scenario: SOLD listing, PAID proposal at unit price 300, one weight
entry of total mass 3000. -/
def C2_listing : Listing :=
  { id := "E", owner_id := "farmer1", status := "SOLD", quantity := 10,
    buyer_id := some "buyer1" }

/-- C2 scenario PAID proposal. -/
def C2_prop : Proposal :=
  { id := "E1", supply_id := "E", buyer_id := "buyer1",
    buyer_contact := "222", price_offer := 300, message := "",
    status := "PAID", timestamp := 1 }

/-- C2 scenario weight entry: total recorded mass 3000. -/
def C2_weight : WeightEntry :=
  { batch_number := 1, quantity := 10, total_weight := 3000,
    timestamp := "t", listing_id := "E" }

/-- C2 scenario payment: transport fee 200, tax 100, yield rate 0.52. -/
def C2_payment : FinalPayment :=
  { nfe_document := "nfe", gta_document := "gta", transport_fee := 200,
    funrural_tax := 100, yield_rate := (52 : ℚ) / 100 }

/-- C2 scenario state. -/
def C2_s0 : AppState :=
  { users := [], farmers := [C2_listing], proposals := [C2_prop],
    weights := [C2_weight], transactions := [], notifs := [] }

/-- C4 counterexample state: the proposal store is empty. -/
def C4_bad : AppState :=
  { users := [u_buyer1],
    farmers := [{ id := "K", owner_id := "farmer1", status := "OPEN",
                  quantity := 3 }],
    proposals := [], weights := [], transactions := [], notifs := [] }

/-- C4 witness listing: reserved, with both settlement documents set. -/
def C4_wlisting : Listing :=
  { id := "K2", owner_id := "farmer1", status := "AWAITING_PAYMENT",
    quantity := 3, buyer_id := some "buyer1",
    nfe_file := some "nfe.pdf", gta_file := some "gta.pdf" }

/-- C4 witness proposal: ACCEPTED, owned by buyer1. -/
def C4_wprop : Proposal :=
  { id := "B1", supply_id := "K2", buyer_id := "buyer1",
    buyer_contact := "222", price_offer := 280, message := "",
    status := "ACCEPTED", timestamp := 1 }

/-- C4 witness state. -/
def C4_ws : AppState :=
  { users := [u_farmer1, u_buyer1], farmers := [C4_wlisting],
    proposals := [C4_wprop], weights := [], transactions := [],
    notifs := [] }

/-- C5 scenario: SOLD listing with a PAID proposal and one weight entry,
so finalize runs in live-weight mode. -/
def C5_s0 : AppState :=
  { users := [],
    farmers := [{ id := "N", owner_id := "farmer1", status := "SOLD",
                  quantity := 10, buyer_id := some "buyer1" }],
    proposals := [{ id := "R1", supply_id := "N", buyer_id := "buyer1",
                    buyer_contact := "222", price_offer := 300,
                    message := "", status := "PAID", timestamp := 1 }],
    weights := [{ batch_number := 1, quantity := 10, total_weight := 3000,
                  timestamp := "t", listing_id := "N" }],
    transactions := [], notifs := [] }

/-- C5 payment body. -/
def C5_payment : FinalPayment :=
  { nfe_document := "nfe", gta_document := "gta", transport_fee := 200,
    funrural_tax := 100, yield_rate := (52 : ℚ) / 100 }

/-- C5 state after the first finalize (transaction T1, completed). -/
def C5_s1 : AppState :=
  (finalize_transaction C5_s0 "N" C5_payment "farmer1" "T1" 5).2

/-- C5 state after a second finalize of the same listing (transaction T2). -/
def C5_s2 : AppState :=
  (finalize_transaction C5_s1 "N" C5_payment "farmer1" "T2" 6).2

/-- C5 state after a slaughterhouse submission against the already
completed transaction T1. -/
def C5_s3 : AppState :=
  (submit_slaughterhouse_weight C5_s1 "T1" 4000 ((9 : ℚ) / 10) 500
    "anyone" 7).2

/-- C6 counterexample state: an open listing and a farmer acting as the
would-be buyer. -/
def C6_bad : AppState :=
  { users := [u_farmer1, u_farmer2],
    farmers := [{ id := "G", owner_id := "farmer1", status := "OPEN",
                  quantity := 4 }],
    proposals := [], weights := [], transactions := [], notifs := [] }

/-- C6 witness listing: open, owned by farmer1. -/
def C6_wsupply : Listing :=
  { id := "G2", owner_id := "farmer1", status := "OPEN", quantity := 4 }

/-- C6 witness state. -/
def C6_ws : AppState :=
  { users := [u_farmer1, u_buyer1], farmers := [C6_wsupply],
    proposals := [], weights := [], transactions := [], notifs := [] }

/-- C7 witness listing: reserved, declared quantity 10. -/
def C7_listing : Listing :=
  { id := "W", owner_id := "farmer1", status := "AWAITING_PAYMENT",
    quantity := 10 }

/-- C7 witness state: batch 1 (quantity 5, mass 1500) already recorded. -/
def C7_ws : AppState :=
  { users := [u_farmer1], farmers := [C7_listing], proposals := [],
    weights := [{ batch_number := 1, quantity := 5, total_weight := 1500,
                  timestamp := "t1", listing_id := "W" }],
    transactions := [], notifs := [] }

/-- C8 witness payment with a yield rate of 0.60, outside [0.48, 0.55]. -/
def C8_badpayment : FinalPayment :=
  { nfe_document := "nfe", gta_document := "gta", transport_fee := 0,
    funrural_tax := 0, yield_rate := (6 : ℚ) / 10 }

/-- C8 witness state for finalize: reserved listing with a PAID proposal. -/
def C8_ws : AppState :=
  { users := [],
    farmers := [{ id := "H", owner_id := "farmer1", status := "SOLD",
                  quantity := 10, buyer_id := some "buyer1" }],
    proposals := [{ id := "H1", supply_id := "H", buyer_id := "buyer1",
                    buyer_contact := "222", price_offer := 300,
                    message := "", status := "PAID", timestamp := 1 }],
    weights := [], transactions := [], notifs := [] }

/-- C8 witness transaction T8, awaiting slaughterhouse weight. -/
def C8_t8 : Transaction :=
  { id := "T8", listing_id := "H", proposal_id := "H1",
    nfe_document := "nfe", gta_document := "gta",
    transport_fee := 0, funrural_tax := 0, timestamp := 2,
    status := "awaiting_slaughterhouse_weight",
    note := some "Waiting for slaughterhouse weighing" }

/-- C8 witness state for the slaughterhouse path: one transaction T8
awaiting slaughterhouse weight. -/
def C8_ts : AppState :=
  { users := [], farmers := [], proposals := [], weights := [],
    transactions := [C8_t8], notifs := [] }

/-- C9 witness proposal, still PENDING. -/
def C9_prop : Proposal :=
  { id := "P1", supply_id := "L", buyer_id := "buyer1",
    buyer_contact := "222", price_offer := 300, message := "",
    status := "PENDING", timestamp := 1 }

/-- C9 witness state. -/
def C9_ws : AppState :=
  { users := [u_farmer1, u_buyer1],
    farmers := [{ id := "L", owner_id := "farmer1", status := "OPEN",
                  quantity := 10 }],
    proposals := [C9_prop], weights := [], transactions := [],
    notifs := [] }

/-- C10 witness state: weight entries exist, but none for listing id
"ghost", and no listing with id "ghost" exists. -/
def C10_ws : AppState :=
  { users := [u_farmer1],
    farmers := [{ id := "L", owner_id := "farmer1", status := "OPEN",
                  quantity := 10 }],
    proposals := [],
    weights := [{ batch_number := 1, quantity := 5, total_weight := 1500,
                  timestamp := "t1", listing_id := "L" }],
    transactions := [], notifs := [] }

/-- C10 second witness state: same weight entries, entirely different
listings and users. -/
def C10_ws2 : AppState :=
  { users := [u_buyer1], farmers := [], proposals := [],
    weights := [{ batch_number := 1, quantity := 5, total_weight := 1500,
                  timestamp := "t1", listing_id := "L" }],
    transactions := [],
    notifs := [⟨some "x", "y"⟩] }

/-- If `find?` locates `a` and `g` keeps the predicate true, then after
updating the first match, `find?` locates `g a`. -/
theorem updateFirst_find? {α} (p : α → Bool) (g : α → α) (l : List α) (a : α)
    (h : l.find? p = some a) (hg : p (g a) = true) :
    (updateFirst p g l).find? p = some (g a) := by
  induction l with
  | nil => simp [List.find?] at h
  | cons x xs ih =>
    by_cases hx : p x = true
    · rw [List.find?_cons_of_pos _ hx] at h
      injection h with h
      subst h
      simp [updateFirst, hx, List.find?_cons_of_pos _ hg]
    · have hx' : p x = false := by simpa using hx
      rw [List.find?_cons_of_neg _ (by simp [hx'])] at h
      simp only [updateFirst, hx', if_neg]
      rw [if_neg (by simp [hx'])]
      rw [List.find?_cons_of_neg _ (by simp [hx'])]
      exact ih h

/-- Claim C1: the listing status is claimed to move only forward along
OPEN, AWAITING_PAYMENT, SOLD, COMPLETED.  The code violates this: after
buyer1 submits two proposals against the open listing L, the farmer
accepts P1, and buyer1 pays P1 (listing SOLD), accepting the still
pending P2 succeeds and moves the listing back to AWAITING_PAYMENT,
a backward transition (rank 2 to rank 1). -/
theorem C1_listing_status_goes_backward :
    (create_proposal C1_s0 "L" 300 "" "buyer1" "P1" 1).1.isOk = true ∧
    (create_proposal C1_s1 "L" 310 "" "buyer1" "P2" 2).1.isOk = true ∧
    (handle_proposal C1_s2 "P1" "accept" "farmer1").1.isOk = true ∧
    (pay_fee C1_s3 "P1" "buyer1").1.isOk = true ∧
    (handle_proposal C1_s4 "P2" "accept" "farmer1").1.isOk = true ∧
    listingStatus C1_s4 "L" = some "SOLD" ∧
    listingStatus C1_s5 "L" = some "AWAITING_PAYMENT" ∧
    statusRank "SOLD" = some 2 ∧
    statusRank "AWAITING_PAYMENT" = some 1 := by
  decide

/-- Claim C3: proposal status is claimed monotonic along PENDING,
ACCEPTED, PAID, with PAID reachable only from ACCEPTED.  The code
violates this: `pay_fee` never checks the proposal status, so the
proposal's own buyer can pay a proposal that is still PENDING, which
jumps it directly to PAID. -/
theorem C3_paid_reachable_from_pending :
    propStatus C3_s1 "Q1" = some "PENDING" ∧
    (pay_fee C3_s1 "Q1" "buyer1").1.isOk = true ∧
    propStatus (pay_fee C3_s1 "Q1" "buyer1").2 "Q1" = some "PAID" := by
  decide

/-- Claim C2: finalize called by the listing owner (with a body that
passed the pydantic yield-rate validation) fails with InvalidState
(HTTP 400) when no proposal of the listing is PAID; otherwise it returns
one transaction, appends exactly that transaction to the store, sets the
listing to COMPLETED with the transaction id linked, and fills the
settlement fields per branch: with weight entries, units is the total
recorded mass over 15, gross is units times yield rate times the PAID
proposal's unit price, final is gross minus transport fee minus tax, each
stored rounded to 2 decimal places and status completed; with no weight
entries, status awaiting_slaughterhouse_weight and no amounts. -/
theorem C2_finalize_settlement
    (s : AppState) (listing_id : String) (payment : FinalPayment)
    (user newId : String) (now : ℚ) (listing : Listing)
    (hfind : s.farmers.find? (fun f => f.id == listing_id) = some listing)
    (howner : listing.owner_id = user)
    (hrate : rateValid payment.yield_rate = true) :
    (s.proposals.find? (fun p => p.supply_id == listing_id && p.status == "PAID") = none →
      finalize_transaction s listing_id payment user newId now
        = (.error ⟨400, "No accepted proposal found"⟩, s)) ∧
    (∀ proposal,
      s.proposals.find? (fun p => p.supply_id == listing_id && p.status == "PAID")
        = some proposal →
      ∃ t : Transaction,
        (finalize_transaction s listing_id payment user newId now).1 = .ok t ∧
        t.id = newId ∧
        ((finalize_transaction s listing_id payment user newId now).2).transactions
          = s.transactions ++ [t] ∧
        ((finalize_transaction s listing_id payment user newId now).2).farmers.find?
            (fun f => f.id == listing_id)
          = some { listing with status := "COMPLETED",
                                transaction_id := some newId } ∧
        (s.weights.filter (fun w => w.listing_id == listing_id) = [] →
          t.status = "awaiting_slaughterhouse_weight" ∧
          t.gross_amount = none ∧ t.final_amount = none) ∧
        (s.weights.filter (fun w => w.listing_id == listing_id) ≠ [] →
          t.status = "completed" ∧
          t.at_quantity = some (round2 (wsum s listing_id / 15)) ∧
          t.gross_amount = some (round2 (wsum s listing_id / 15 *
            payment.yield_rate * proposal.price_offer)) ∧
          t.final_amount = some (round2 (wsum s listing_id / 15 *
            payment.yield_rate * proposal.price_offer -
            payment.transport_fee - payment.funrural_tax)))) := by
  constructor
  · intro hnone
    simp [finalize_transaction, hrate, hfind, howner, hnone]
  · intro proposal hprop
    have hg := updateFirst_find? (fun f => f.id == listing_id)
      (fun f => { f with status := "COMPLETED",
                         transaction_id := some newId }) s.farmers listing hfind
      (by simpa using List.find?_some hfind)
    by_cases he : s.weights.filter (fun w => w.listing_id == listing_id) = []
    · refine ⟨{ id := newId, listing_id := listing_id,
                proposal_id := proposal.id,
                nfe_document := payment.nfe_document,
                gta_document := payment.gta_document,
                transport_fee := payment.transport_fee,
                funrural_tax := payment.funrural_tax, timestamp := now,
                status := "awaiting_slaughterhouse_weight",
                note := some "Waiting for slaughterhouse weighing" },
        ?_, ?_, ?_, ?_, ?_, ?_⟩
      case _ =>
        simp [finalize_transaction, hrate, hfind, howner, hprop, he]
      case _ => rfl
      case _ =>
        simp [finalize_transaction, hrate, hfind, howner, hprop, he]
      case _ =>
        simp [finalize_transaction, hrate, hfind, howner, hprop, he]
        simpa [howner] using hg
      case _ =>
        intro _
        exact ⟨rfl, rfl, rfl⟩
      case _ =>
        intro hne
        exact absurd he hne
    · have he' : (s.weights.filter (fun w => w.listing_id == listing_id)).isEmpty = false := by
        simpa using he
      refine ⟨{ id := newId, listing_id := listing_id,
                proposal_id := proposal.id,
                nfe_document := payment.nfe_document,
                gta_document := payment.gta_document,
                transport_fee := payment.transport_fee,
                funrural_tax := payment.funrural_tax, timestamp := now,
                total_weight := some (wsum s listing_id),
                at_quantity := some (round2 (wsum s listing_id / 15)),
                yield_rate := some payment.yield_rate,
                price_per_unit := some proposal.price_offer,
                gross_amount := some (round2 (wsum s listing_id / 15 *
                  payment.yield_rate * proposal.price_offer)),
                final_amount := some (round2 (wsum s listing_id / 15 *
                  payment.yield_rate * proposal.price_offer -
                  payment.transport_fee - payment.funrural_tax)),
                status := "completed" },
        ?_, ?_, ?_, ?_, ?_, ?_⟩
      case _ =>
        simp [finalize_transaction, hrate, hfind, howner, hprop, he', wsum]
      case _ => rfl
      case _ =>
        simp [finalize_transaction, hrate, hfind, howner, hprop, he', wsum]
      case _ =>
        simp [finalize_transaction, hrate, hfind, howner, hprop, he']
        simpa [howner] using hg
      case _ =>
        intro h
        exact absurd h he
      case _ =>
        intro _
        exact ⟨rfl, rfl, rfl, rfl⟩

/-- Claim C4 (amended): pay-reservation fails with Forbidden (HTTP 403)
when the proposal is missing or when the caller is not the proposal's
buyer, leaving the state unchanged; it fails with NotFound (HTTP 404)
when the proposal's referenced listing is missing; on success it sets the
listing to SOLD, the proposal to PAID, notifies the listing owner, and
returns the settlement document placeholders carried on the listing. -/
theorem C4_pay_reservation_spec (s : AppState) (pid user : String) :
    (s.proposals.find? (fun p => p.id == pid) = none →
      pay_fee s pid user = (.error ⟨403, "Forbidden"⟩, s)) ∧
    (∀ prop, s.proposals.find? (fun p => p.id == pid) = some prop →
      (prop.buyer_id ≠ user →
        pay_fee s pid user = (.error ⟨403, "Forbidden"⟩, s)) ∧
      (prop.buyer_id = user →
        (s.farmers.find? (fun f => f.id == prop.supply_id) = none →
          pay_fee s pid user = (.error ⟨404, "Not Found"⟩, s)) ∧
        (∀ supply, s.farmers.find? (fun f => f.id == prop.supply_id) = some supply →
          (pay_fee s pid user).1 = .ok (supply.nfe_file, supply.gta_file) ∧
          ((pay_fee s pid user).2).farmers.find? (fun f => f.id == prop.supply_id)
            = some { supply with status := "SOLD" } ∧
          ((pay_fee s pid user).2).proposals.find? (fun p => p.id == pid)
            = some { prop with status := "PAID" } ∧
          ((pay_fee s pid user).2).notifs
            = s.notifs ++
              [⟨some supply.owner_id, "Deal Closed! Buyer paid fee."⟩]))) := by
  constructor
  · intro hnone
    simp [pay_fee, hnone]
  · intro prop hprop
    constructor
    · intro hne
      simp [pay_fee, hprop, hne]
    · intro heq
      constructor
      · intro hfnone
        simp [pay_fee, hprop, heq, hfnone]
      · intro supply hsupply
        have h1 := updateFirst_find? (fun f => f.id == prop.supply_id)
          (fun f => { f with status := "SOLD" }) s.farmers supply hsupply
          (by simpa using List.find?_some hsupply)
        have h2 := updateFirst_find? (fun p => p.id == pid)
          (fun p => { p with status := "PAID" }) s.proposals prop hprop
          (by simpa using List.find?_some hprop)
        refine ⟨?_, ?_, ?_, ?_⟩ <;>
          simp [pay_fee, hprop, heq, hsupply, h1, h2]

/-- Claim C4, counterexample to the claim as stated: when the proposal id
is unknown, `pay_fee` answers HTTP 403 (Forbidden), not the claimed
NotFound (HTTP 404). -/
theorem C4_missing_proposal_is_forbidden :
    C4_bad.proposals.find? (fun p => p.id == "p1") = none ∧
    pay_fee C4_bad "p1" "alice" = (.error ⟨403, "Forbidden"⟩, C4_bad) ∧
    (pay_fee C4_bad "p1" "alice").1 ≠ .error ⟨404, "Not Found"⟩ := by
  decide

/-- Claim C4, witness: the success case of `C4_pay_reservation_spec` at a
concrete accepted proposal whose listing carries both documents. -/
theorem C4_pay_reservation_witness :
    (pay_fee C4_ws "B1" "buyer1").1
      = .ok (C4_wlisting.nfe_file, C4_wlisting.gta_file) ∧
    ((pay_fee C4_ws "B1" "buyer1").2).farmers.find?
        (fun f => f.id == C4_wprop.supply_id)
      = some { C4_wlisting with status := "SOLD" } ∧
    ((pay_fee C4_ws "B1" "buyer1").2).proposals.find? (fun p => p.id == "B1")
      = some { C4_wprop with status := "PAID" } ∧
    ((pay_fee C4_ws "B1" "buyer1").2).notifs
      = C4_ws.notifs ++
        [⟨some C4_wlisting.owner_id, "Deal Closed! Buyer paid fee."⟩] :=
  (((C4_pay_reservation_spec C4_ws "B1" "buyer1").2 C4_wprop
    (by decide)).2 rfl).2 C4_wlisting (by decide)

/-- Claim C5: the claim says at most one transaction is ever created per
listing and completed transactions are immutable.  The code violates
both: finalize has no completed-listing guard, so finalizing the same
listing twice creates two transactions, and the slaughterhouse submission
has no status guard, so it overwrites the already completed transaction
T1 (final amount 30900 becomes 120000). -/
theorem C5_transaction_not_unique_nor_immutable :
    (finalize_transaction C5_s0 "N" C5_payment "farmer1" "T1" 5).1.isOk = true ∧
    (finalize_transaction C5_s1 "N" C5_payment "farmer1" "T2" 6).1.isOk = true ∧
    (C5_s2.transactions.filter (fun t => t.listing_id == "N")).length = 2 ∧
    (C5_s1.transactions.find? (fun t => t.id == "T1")).map (fun t => t.status)
      = some "completed" ∧
    (C5_s1.transactions.find? (fun t => t.id == "T1")).map
        (fun t => t.final_amount)
      = some (some 30900) ∧
    (submit_slaughterhouse_weight C5_s1 "T1" 4000 ((9 : ℚ) / 10) 500
      "anyone" 7).1.isOk = true ∧
    (C5_s3.transactions.find? (fun t => t.id == "T1")).map
        (fun t => t.final_amount)
      = some (some 120000) := by
  simp [C5_s3, C5_s2, C5_s1, C5_s0, C5_payment, finalize_transaction,
    submit_slaughterhouse_weight, rateValid, updateFirst, round2, round_eq]
  norm_num [Except.isOk, Except.toBool, updateFirst, List.find?]

/-- Claim C6 (amended): submitting a proposal fails with NotFound
(HTTP 404) for an unknown listing and with InvalidState (HTTP 400,
"Listing not open") for a listing not in OPEN status; when the
submitter's role is farmer it is rejected with HTTP 400 ("Farmers cannot
buy") — the same status code as InvalidState, not 403 Forbidden; on
success it appends a PENDING proposal with the buyer's phone snapshot,
notifies the listing owner, and returns the new proposal id. -/
theorem C6_create_proposal_spec
    (s : AppState) (supply_id : String) (price_offer : ℚ)
    (message user newId : String) (now : ℚ) :
    (s.farmers.find? (fun f => f.id == supply_id) = none →
      create_proposal s supply_id price_offer message user newId now
        = (.error ⟨404, "Supply not found"⟩, s)) ∧
    (∀ supply, s.farmers.find? (fun f => f.id == supply_id) = some supply →
      (supply.status ≠ "OPEN" →
        create_proposal s supply_id price_offer message user newId now
          = (.error ⟨400, "Listing not open"⟩, s)) ∧
      (supply.status = "OPEN" →
        (roleIsFarmer s user = true →
          create_proposal s supply_id price_offer message user newId now
            = (.error ⟨400, "Farmers cannot buy"⟩, s)) ∧
        (roleIsFarmer s user = false →
          (create_proposal s supply_id price_offer message user newId now).1
            = .ok newId ∧
          ((create_proposal s supply_id price_offer message user newId now).2).proposals
            = s.proposals ++
              [{ id := newId, supply_id := supply_id, buyer_id := user,
                 buyer_contact := contactOf s user,
                 price_offer := price_offer, message := message,
                 status := "PENDING", timestamp := now }] ∧
          ((create_proposal s supply_id price_offer message user newId now).2).notifs
            = s.notifs ++ [⟨some supply.owner_id, "New Offer: R$ "⟩]))) := by
  constructor
  · intro hnone
    simp [create_proposal, hnone]
  · intro supply hfind
    refine ⟨?_, ?_⟩
    · intro hst
      simp [create_proposal, hfind, hst]
    · intro hopen
      refine ⟨?_, ?_⟩
      · intro hrole
        simp [create_proposal, hfind, hopen, hrole]
      · intro hrole
        refine ⟨?_, ?_, ?_⟩ <;> simp [create_proposal, hfind, hopen, hrole]

/-- Claim C6, counterexample to the claim as stated: a farmer submitting
a proposal against an open listing is rejected with HTTP 400 ("Farmers
cannot buy"), not with Forbidden (HTTP 403) as claimed. -/
theorem C6_farmer_rejected_with_400 :
    listingStatus C6_bad "G" = some "OPEN" ∧
    roleIsFarmer C6_bad "farmer2" = true ∧
    create_proposal C6_bad "G" 100 "" "farmer2" "P9" 1
      = (.error ⟨400, "Farmers cannot buy"⟩, C6_bad) ∧
    (match (create_proposal C6_bad "G" 100 "" "farmer2" "P9" 1).1 with
      | .error e => e.status
      | .ok _ => 0) ≠ 403 := by
  decide

/-- Claim C6, witness: the success case of `C6_create_proposal_spec` for
a non-farmer buyer against an open listing. -/
theorem C6_create_proposal_witness :
    (create_proposal C6_ws "G2" 100 "" "buyer1" "P6" 1).1 = .ok "P6" ∧
    ((create_proposal C6_ws "G2" 100 "" "buyer1" "P6" 1).2).proposals
      = C6_ws.proposals ++
        [{ id := "P6", supply_id := "G2", buyer_id := "buyer1",
           buyer_contact := contactOf C6_ws "buyer1",
           price_offer := 100, message := "",
           status := "PENDING", timestamp := 1 }] ∧
    ((create_proposal C6_ws "G2" 100 "" "buyer1" "P6" 1).2).notifs
      = C6_ws.notifs ++ [⟨some C6_wsupply.owner_id, "New Offer: R$ "⟩] :=
  (((C6_create_proposal_spec C6_ws "G2" 100 "" "buyer1" "P6" 1).2 C6_wsupply
    (by decide)).2 rfl).2 (by decide)

/-- Claim C7: recording a weight entry fails with NotFound (404) for an
unknown listing, Forbidden (403) for a non-owner, InvalidState (400)
unless the listing status is AWAITING_PAYMENT or SOLD; on success it
appends the entry (timestamped with the supplied instant when the caller
omits one), returns the cumulative weighed quantity and the unclamped
remaining quantity, and notifies the caller exactly when the cumulative
quantity reaches the declared quantity. -/
theorem C7_weight_entry_spec
    (s : AppState) (listing_id : String) (batch_number quantity : Int)
    (total_weight : ℚ) (timestamp : Option String) (user now : String) :
    (s.farmers.find? (fun f => f.id == listing_id) = none →
      add_weight_entry s listing_id batch_number quantity total_weight timestamp user now
        = (.error ⟨404, "Listing not found"⟩, s)) ∧
    (∀ listing, s.farmers.find? (fun f => f.id == listing_id) = some listing →
      (listing.owner_id ≠ user →
        add_weight_entry s listing_id batch_number quantity total_weight timestamp user now
          = (.error ⟨403, "Not authorized"⟩, s)) ∧
      (listing.owner_id = user →
        (¬(listing.status = "SOLD" ∨ listing.status = "AWAITING_PAYMENT") →
          add_weight_entry s listing_id batch_number quantity total_weight timestamp user now
            = (.error ⟨400, "Listing must be reserved first"⟩, s)) ∧
        ((listing.status = "SOLD" ∨ listing.status = "AWAITING_PAYMENT") →
          ∃ e : WeightEntry,
            (add_weight_entry s listing_id batch_number quantity total_weight timestamp user now).2.weights
              = s.weights ++ [e] ∧
            e.listing_id = listing_id ∧ e.quantity = quantity ∧
            e.total_weight = total_weight ∧ e.batch_number = batch_number ∧
            (timestamp = none → e.timestamp = now) ∧
            (add_weight_entry s listing_id batch_number quantity total_weight timestamp user now).1
              = .ok (qsum s listing_id + quantity,
                     listing.quantity - (qsum s listing_id + quantity)) ∧
            (listing.quantity ≤ qsum s listing_id + quantity →
              (add_weight_entry s listing_id batch_number quantity total_weight timestamp user now).2.notifs
                = s.notifs ++
                  [⟨some user, "Weighing completed for listing #" ++ listing_id⟩]) ∧
            (qsum s listing_id + quantity < listing.quantity →
              (add_weight_entry s listing_id batch_number quantity total_weight timestamp user now).2.notifs
                = s.notifs)))) := by
  constructor
  · intro hnone
    simp [add_weight_entry, hnone]
  · intro listing hfind
    refine ⟨?_, ?_⟩
    · intro hown
      simp [add_weight_entry, hfind, hown]
    · intro hown
      refine ⟨?_, ?_⟩
      · intro hst
        have h1 : (listing.status == "SOLD") = false := by
          simp
          intro h
          exact hst (Or.inl h)
        have h2 : (listing.status == "AWAITING_PAYMENT") = false := by
          simp
          intro h
          exact hst (Or.inr h)
        simp [add_weight_entry, hfind, hown, h1, h2]
      · intro hst
        have hb : (listing.status == "SOLD" || listing.status == "AWAITING_PAYMENT") = true := by
          rcases hst with h | h <;> simp [h]
        refine ⟨⟨batch_number, quantity, total_weight,
          (match timestamp with
            | none => now
            | some t => if t == "" then now else t), listing_id⟩,
          ?_, ?_, ?_, ?_, ?_, ?_, ?_, ?_, ?_⟩
        case _ =>
          simp [add_weight_entry, hfind, hown, hb]
        case _ => rfl
        case _ => rfl
        case _ => rfl
        case _ => rfl
        case _ =>
          intro hts
          simp [hts]
        case _ =>
          simp [add_weight_entry, hfind, hown, hb, qsum, List.filter_append,
            Int.add_comm]
        case _ =>
          intro hle
          simp [qsum] at hle
          simp [add_weight_entry, hfind, hown, hb, List.filter_append]
          omega
        case _ =>
          intro hlt
          simp [qsum] at hlt
          simp [add_weight_entry, hfind, hown, hb, List.filter_append]
          omega

/-- Claim C7, witness: batch 2 of quantity 5 and mass 1600 recorded after
batch 1 of quantity 5 against declared quantity 10 yields total_weighed
10, remaining 0, and the completion notification. -/
theorem C7_weight_entry_witness :
    (add_weight_entry C7_ws "W" 2 5 1600 none "farmer1" "t2").1 = .ok (10, 0) ∧
    (add_weight_entry C7_ws "W" 2 5 1600 none "farmer1" "t2").2.notifs
      = C7_ws.notifs ++
        [⟨some "farmer1", "Weighing completed for listing #" ++ "W"⟩] := by
  have h := ((C7_weight_entry_spec C7_ws "W" 2 5 1600 none "farmer1" "t2").2
    C7_listing (by decide)).2 rfl
  have h2 := h.2 (Or.inr rfl)
  obtain ⟨e, hw, hlid, hq, htw, hbn, hts, hok, hnotif, hlt⟩ := h2
  refine ⟨?_, hnotif (by decide)⟩
  rw [hok]
  decide

/-- Claim C2, witness: for total recorded mass 3000, yield rate 0.52,
unit price 300, transport fee 200 and tax 100, finalize by the owner
yields a completed transaction with units 200, gross 31200 and final
30900, appends exactly one transaction, and completes the listing. -/
theorem C2_finalize_settlement_witness :
    C2_s0.farmers.find? (fun f => f.id == "E") = some C2_listing ∧
    C2_listing.owner_id = "farmer1" ∧
    rateValid C2_payment.yield_rate = true ∧
    (∃ t : Transaction,
      (finalize_transaction C2_s0 "E" C2_payment "farmer1" "T1" 5).1 = .ok t ∧
      t.status = "completed" ∧ t.at_quantity = some 200 ∧
      t.gross_amount = some 31200 ∧ t.final_amount = some 30900) ∧
    listingStatus (finalize_transaction C2_s0 "E" C2_payment "farmer1" "T1" 5).2 "E"
      = some "COMPLETED" ∧
    ((finalize_transaction C2_s0 "E" C2_payment "farmer1" "T1" 5).2).transactions.length
      = C2_s0.transactions.length + 1 := by
  have hrate : rateValid C2_payment.yield_rate = true := by
    norm_num [rateValid, C2_payment]
  have h := (C2_finalize_settlement C2_s0 "E" C2_payment "farmer1" "T1" 5
    C2_listing (by decide) rfl hrate).2 C2_prop (by decide)
  obtain ⟨t, hok, hid, htr, hfarm, hdead, hlive⟩ := h
  have hlive' := hlive (by decide)
  refine ⟨by decide, rfl, hrate, ⟨t, hok, hlive'.1, ?_, ?_, ?_⟩, ?_, ?_⟩
  · rw [hlive'.2.1]
    norm_num [wsum, C2_s0, C2_weight, round2, round_eq]
  · rw [hlive'.2.2.1]
    norm_num [wsum, C2_s0, C2_weight, C2_payment, C2_prop, round2, round_eq]
  · rw [hlive'.2.2.2]
    norm_num [wsum, C2_s0, C2_weight, C2_payment, C2_prop, round2, round_eq]
  · simp [listingStatus, hfarm]
  · simp [htr]

/-- Claim C8: a finalize body whose yield rate fails the pydantic range
check on [0.48, 0.55] is rejected (HTTP 422) with no state change, while
the slaughterhouse submission accepts any yield rate and uses it in the
settlement computation. -/
theorem C8_yield_rate_validation_asymmetry :
    (∀ (s : AppState) (listing_id : String) (payment : FinalPayment)
        (user newId : String) (now : ℚ),
      rateValid payment.yield_rate = false →
      finalize_transaction s listing_id payment user newId now
        = (.error ⟨422, "Unprocessable Entity"⟩, s)) ∧
    (∀ (s : AppState) (transaction_id : String)
        (final_weight yield_rate price_per_unit : ℚ)
        (user : String) (now : ℚ) (transaction : Transaction),
      s.transactions.find? (fun t => t.id == transaction_id) = some transaction →
      (submit_slaughterhouse_weight s transaction_id final_weight yield_rate
          price_per_unit user now).1
        = .ok (final_weight, round2 (final_weight / 15),
               round2 (final_weight / 15 * yield_rate * price_per_unit)) ∧
      ((submit_slaughterhouse_weight s transaction_id final_weight yield_rate
          price_per_unit user now).2).transactions.find?
          (fun t => t.id == transaction_id)
        = some { transaction with
            slaughterhouse_weight := some final_weight,
            at_quantity := some (round2 (final_weight / 15)),
            yield_rate := some yield_rate,
            price_per_unit := some price_per_unit,
            final_amount := some (round2 (final_weight / 15 * yield_rate *
              price_per_unit)),
            status := "completed",
            completed_at := some now }) := by
  constructor
  · intro s listing_id payment user newId now h
    simp [finalize_transaction, h]
  · intro s transaction_id final_weight yield_rate price_per_unit user now transaction h
    have hg := updateFirst_find? (fun t => t.id == transaction_id)
      (fun t => { t with
          slaughterhouse_weight := some final_weight,
          at_quantity := some (round2 (final_weight / 15)),
          yield_rate := some yield_rate,
          price_per_unit := some price_per_unit,
          final_amount := some (round2 (final_weight / 15 * yield_rate *
            price_per_unit)),
          status := "completed",
          completed_at := some now }) s.transactions transaction h
      (by simpa using List.find?_some h)
    constructor
    · simp [submit_slaughterhouse_weight, h]
    · simp [submit_slaughterhouse_weight, h]
      exact hg

/-- Claim C8, witness: yield rate 0.60 is rejected by finalize, and the
slaughterhouse path accepts yield rate 0.90 and computes the amount from
it (4000 / 15 x 0.9 x 500 = 120000). -/
theorem C8_yield_rate_validation_witness :
    rateValid C8_badpayment.yield_rate = false ∧
    finalize_transaction C8_ws "H" C8_badpayment "farmer1" "T9" 1
      = (.error ⟨422, "Unprocessable Entity"⟩, C8_ws) ∧
    (submit_slaughterhouse_weight C8_ts "T8" 4000 ((9 : ℚ) / 10) 500
        "anyone" 7).1
      = .ok (4000, round2 ((4000 : ℚ) / 15),
             round2 ((4000 : ℚ) / 15 * ((9 : ℚ) / 10) * 500)) ∧
    round2 ((4000 : ℚ) / 15 * ((9 : ℚ) / 10) * 500) = 120000 := by
  have hbad : rateValid C8_badpayment.yield_rate = false := by
    norm_num [rateValid, C8_badpayment]
  refine ⟨hbad,
    C8_yield_rate_validation_asymmetry.1 C8_ws "H" C8_badpayment "farmer1"
      "T9" 1 hbad,
    (C8_yield_rate_validation_asymmetry.2 C8_ts "T8" 4000 ((9 : ℚ) / 10) 500
      "anyone" 7 C8_t8 (by decide)).1, ?_⟩
  norm_num [round2, round_eq]

/-- Claim C9: responding to an existing proposal with any action other
than accept and reject reports success ("Updated") and leaves the whole
state - proposal statuses, listings and notifications - unchanged. -/
theorem C9_unknown_action_is_noop
    (s : AppState) (pid action user : String) (prop : Proposal)
    (hfind : s.proposals.find? (fun p => p.id == pid) = some prop)
    (h1 : action ≠ "accept") (h2 : action ≠ "reject") :
    handle_proposal s pid action user = (.ok "Updated", s) := by
  simp [handle_proposal, hfind, h1, h2]

/-- Claim C9, witness: the action string "approve" on a pending proposal
reports success and changes nothing. -/
theorem C9_unknown_action_witness :
    handle_proposal C9_ws "P1" "approve" "farmer1" = (.ok "Updated", C9_ws) :=
  C9_unknown_action_is_noop C9_ws "P1" "approve" "farmer1" C9_prop
    (by decide) (by decide) (by decide)

/-- Claim C10: the weights read path never fails (it is a total function
in the embedding, mirroring the handler having no raise), performs no
listing-existence or ownership check (its result depends only on the
weights collection, not on listings, users, or the caller), and returns
an empty list with an all-zero summary for any id with no entries. -/
theorem C10_get_weights_total_readonly
    (s s2 : AppState) (listing_id user user2 : String)
    (hw : s.weights = s2.weights) :
    get_weights s listing_id user = get_weights s2 listing_id user2 ∧
    (s.weights.filter (fun w => w.listing_id == listing_id) = [] →
      get_weights s listing_id user = ([], 0, 0, 0)) := by
  constructor
  · simp [get_weights, hw]
  · intro h
    norm_num [get_weights, h, round2, round_eq]

/-- Claim C10, witness: querying the id "ghost", for which no listing and
no weight entry exists, returns the empty list and zero totals, and two
states differing in users, listings and notifications give the same
answer. -/
theorem C10_get_weights_witness :
    get_weights C10_ws "ghost" "anyone" = get_weights C10_ws2 "ghost" "other" ∧
    get_weights C10_ws "ghost" "anyone" = ([], 0, 0, 0) ∧
    C10_ws.farmers.find? (fun f => f.id == "ghost") = none := by
  have h := C10_get_weights_total_readonly C10_ws C10_ws2 "ghost" "anyone"
    "other" rfl
  exact ⟨h.1, h.2 (by decide), by decide⟩
